import Mathlib

/-!
# TTS-Application: the conversion client and its caller

A shallow embedding of `Frontend/src/services/TTSService.js` (the axios response
interceptor, `TTSService.convertText`, `TTSService.convertTextAlternative`) and of
`handleConvertText` in `Frontend/src/App.js`.

The network is an explicit value (`Network`): what `apiClient.post` and `fetch`
settle with for a given request body.  Every function returns its result together
with the list of events it caused, in order, so that the number and the contents
of the transport attempts can be stated.
-/

namespace TTS

/-! ## JavaScript values -/

/-- JavaScript values as far as the program inspects them: what a JSON body parses
to, plus `undefined`.  `num` holds the safe integers (magnitude below 2^53),
whose string conversion is their decimal rendering; other numbers are outside
the model.  Objects list their own properties with distinct keys. -/
inductive JsVal where
  | undefined
  | null
  | bool (b : Bool)
  | num (n : Int) (safe : n.natAbs < 9007199254740992)
  | str (s : String)
  | arr (items : List JsVal)
  | obj (fields : List (String × JsVal))

/-- An `Error` object; the program reads nothing but its `message`. -/
structure JsError where
  message : String
deriving DecidableEq

namespace JsVal

/-- ToBoolean: the test made by `if (v)`, `!v` and `v || w`. -/
def truthy : JsVal → Bool
  | undefined => false
  | null => false
  | bool b => b
  | num n _ => n != 0
  | str s => s != ""
  | arr _ => true
  | obj _ => true

mutual
/-- ToString, the conversion made by `new Error(v)`, by a template literal and by
the Blob constructor: the string, or the TypeError thrown (wording of V8).  An
object converts through Object.prototype.toString unless it has an own
`toString` property: parsed from JSON that property is not callable, and the
conversion throws. -/
def toStr : JsVal → Except JsError String
  | undefined => .ok "undefined"
  | null => .ok "null"
  | bool b => .ok (if b then "true" else "false")
  | num n _ => .ok (toString n)
  | str s => .ok s
  | arr items => joinItems items
  | obj fields =>
    if (fields.lookup "toString").isSome then
      .error ⟨"Cannot convert object to primitive value"⟩
    else
      .ok "[object Object]"
termination_by structural v => v
/-- Array.prototype.join with the default separator: `null` and `undefined`
elements render as the empty string, the others through ToString. -/
def joinItems : List JsVal → Except JsError String
  | [] => .ok ""
  | x :: rest =>
    match (match x with
      | undefined => Except.ok ""
      | null => Except.ok ""
      | v => toStr v) with
    | .error e => .error e
    | .ok first =>
      match rest with
      | [] => .ok first
      | _ :: _ =>
        match joinItems rest with
        | .error e => .error e
        | .ok others => .ok (first ++ "," ++ others)
termination_by structural l => l
end

/-- Property read `v.key` for the keys the program reads (`error`, `audio_url`,
`isBase64Encoded`, `body`): a TypeError on `null` and `undefined` (message in the
wording of V8), the own property of an object, `undefined` otherwise. -/
def getProp (v : JsVal) (key : String) : Except JsError JsVal :=
  match v with
  | undefined =>
    .error ⟨"Cannot read properties of undefined (reading '" ++ key ++ "')"⟩
  | null => .error ⟨"Cannot read properties of null (reading '" ++ key ++ "')"⟩
  | obj fields => .ok ((fields.lookup key).getD undefined)
  | _ => .ok undefined

/-- The expression `v || w`. -/
def orElse (v w : JsVal) : JsVal := if v.truthy then v else w

end JsVal

/-- The statement `throw new Error(v)`: the error thrown.  The message of the new
Error is the string conversion of the argument (empty when the argument is
`undefined`); when that conversion throws, its TypeError is what is thrown. -/
def throwNewError (v : JsVal) : JsError :=
  match v with
  | .undefined => ⟨""⟩
  | v =>
    match v.toStr with
    | .ok message => ⟨message⟩
    | .error e => e

/-- String.prototype.includes, on the characters of the two strings. -/
def includes (s pat : String) : Bool :=
  s.data.tails.any (fun t => pat.data.isPrefixOf t)

/-- The characters String.prototype.trim strips: ECMAScript WhiteSpace and
LineTerminator. -/
def isJsWhiteSpace (c : Char) : Bool :=
  let n := c.toNat
  n = 0x09 || n = 0x0A || n = 0x0B || n = 0x0C || n = 0x0D || n = 0x20 || n = 0xA0
    || n = 0x1680 || (0x2000 ≤ n && n ≤ 0x200A) || n = 0x2028 || n = 0x2029
    || n = 0x202F || n = 0x205F || n = 0x3000 || n = 0xFEFF

/-- String.prototype.trim. -/
def trim (s : String) : String :=
  ⟨((s.data.dropWhile isJsWhiteSpace).reverse.dropWhile isJsWhiteSpace).reverse⟩

/-! ## The transports -/

/-- The JSON body `{ text, voice }` both transports send to `/convert`. -/
structure Request where
  text : String
  voice : String
deriving DecidableEq

/-- What happened, in order: a call of `TTSService.convertText`, a request through
`apiClient.post` (primary transport), a request through `fetch` (fallback). -/
inductive Event where
  | convertTextCall (text voice : String)
  | post (body : Request)
  | fetch (body : Request)
deriving DecidableEq

/-- An axios response: `status` (the HTTP status code, an unsigned short in
XMLHttpRequest) and the parsed `data`. -/
structure AxiosResponse where
  status : Nat
  data : JsVal

/-- The error axios rejects with, as the interceptor reads it: `code`, `response`
(absent when none was received), whether `request` is set, and `message`. -/
structure AxiosError where
  code : Option String
  response : Option AxiosResponse
  request : Bool
  message : String

/-- How `apiClient.post` settles before the response interceptor runs. -/
inductive AxiosOutcome where
  | resolved (response : AxiosResponse)
  | rejected (error : AxiosError)

/-- A fetch Response: `status`, what `text()` settles with (the body text, or the
error of a body that cannot be read) and what `json()` settles with (the parsed
body, or the SyntaxError of the parser). -/
structure FetchResponse where
  status : Nat
  text : Except JsError String
  json : Except JsError JsVal

/-- Response.ok: the status is in the range 200-299. -/
def FetchResponse.ok (r : FetchResponse) : Bool := 200 ≤ r.status && r.status ≤ 299

/-- How `fetch` settles: with a response of any status, or rejected (no
connectivity, blocked request). -/
inductive FetchOutcome where
  | resolved (response : FetchResponse)
  | rejected (error : JsError)

/-- The network: the outcome of each transport for each request body. -/
structure Network where
  post : Request → AxiosOutcome
  fetch : Request → FetchOutcome

/-- The rejection handler of `apiClient.interceptors.response`
(TTSService.js lines 33-64): the error it throws. -/
def responseInterceptor (error : AxiosError) : JsError :=
  if error.code = some "ECONNABORTED" then
    ⟨"Request timeout - please try again"⟩
  else
    match error.response with
    | some response =>
      let status := response.status
      let data := response.data
      if status = 400 then
        match data.getProp "error" with
        | .error e => e
        | .ok v => throwNewError (v.orElse (.str "Invalid request"))
      else if status = 403 then
        ⟨"Access denied - CORS issue"⟩
      else if status = 404 then
        ⟨"API endpoint not found"⟩
      else if status = 500 then
        match data.getProp "error" with
        | .error e => e
        | .ok v => throwNewError (v.orElse (.str "Server error"))
      else
        match data.getProp "error" with
        | .error e => e
        | .ok v =>
          match (v.orElse (.str "Unknown error")).toStr with
          | .error e => e
          | .ok detail => ⟨"Server error (" ++ toString status ++ "): " ++ detail⟩
    | none =>
      if error.request then
        ⟨"Network error - please check your connection"⟩
      else
        throwNewError ((JsVal.str error.message).orElse (.str "Unknown error occurred"))

namespace TTSService

/-- The method `TTSService.convertTextAlternative` (TTSService.js lines 94-122). -/
def convertTextAlternative (net : Network) (text : String) (voice : Option String) :
    Except JsError JsVal × List Event :=
  let voice := voice.getD "Joanna"
  let body : Request := ⟨text, voice⟩
  let attempt : Except JsError JsVal :=
    match net.fetch body with
    | .rejected e => .error e
    | .resolved response =>
      if !response.ok then
        match response.text with
        | .error e => .error e
        | .ok errorText =>
          .error ⟨"HTTP " ++ toString response.status ++ ": " ++ errorText⟩
      else
        response.json
  match attempt with
  | .ok data => (.ok data, [.fetch body])
  | .error e => (.error ⟨"API call failed: " ++ e.message⟩, [.fetch body])

/-- The method `TTSService.convertText` (TTSService.js lines 68-91). -/
def convertText (net : Network) (text : String) (voice : Option String) :
    Except JsError JsVal × List Event :=
  let voice := voice.getD "Joanna"
  let body : Request := ⟨text, voice⟩
  match net.post body with
  | .resolved response => (.ok response.data, [.post body])
  | .rejected raw =>
    let error := responseInterceptor raw
    if includes error.message "CORS" || includes error.message "Network" then
      let alt := convertTextAlternative net text (some voice)
      (alt.1, .post body :: alt.2)
    else
      (.error error, [.post body])

end TTSService

/-! ## The caller: `App.js` -/

/-- A Blob built from one part: its bytes and its `type`. -/
structure Blob where
  bytes : List UInt8
  type : String
deriving DecidableEq

/-- The expression `new Blob([part], { type })` for a part that is neither a
Blob nor a buffer: the UTF-8 encoding of its string conversion, or the TypeError
that conversion throws. -/
def newBlob (part : JsVal) (type : String) : Except JsError Blob :=
  match part.toStr with
  | .error e => .error e
  | .ok text => .ok ⟨text.data.flatMap String.utf8EncodeChar, type⟩

/-- The state of `App` that `handleConvertText` reads and writes. -/
structure AppState where
  text : String
  voice : String
  audioUrl : JsVal
  isLoading : Bool
  error : String

/-- Lines 47-56 of App.js: the value passed to `setAudioUrl`, or the error thrown.
`createObjectURL` is the browser's `URL.createObjectURL`. -/
def inspectResult (createObjectURL : Blob → String) (result : JsVal) :
    Except JsError JsVal :=
  match result.getProp "audio_url" with
  | .error e => .error e
  | .ok audio_url =>
    if audio_url.truthy then
      .ok audio_url
    else
      match result.getProp "isBase64Encoded" with
      | .error e => .error e
      | .ok isBase64Encoded =>
        if isBase64Encoded.truthy then
          match result.getProp "body" with
          | .error e => .error e
          | .ok body =>
            match newBlob body "audio/mpeg" with
            | .error e => .error e
            | .ok audioBlob => .ok (.str (createObjectURL audioBlob))
        else
          .error ⟨"Unexpected response format"⟩

/-- The handler `handleConvertText` (App.js lines 34-63): the state once it has
finished, and the events it caused. -/
def handleConvertText (net : Network) (createObjectURL : Blob → String) (s : AppState) :
    AppState × List Event :=
  if !(JsVal.str (trim s.text)).truthy then
    ({ s with error := "Please type some text!" }, [])
  else
    let s1 : AppState := { s with isLoading := true, error := "", audioUrl := .str "" }
    let call := TTSService.convertText net s.text (some s.voice)
    let outcome : Except JsError JsVal :=
      match call.1 with
      | .error err => .error err
      | .ok result => inspectResult createObjectURL result
    let s2 : AppState :=
      match outcome with
      | .ok url => { s1 with audioUrl := url }
      | .error err => { s1 with error := "Failed to generate audio: " ++ err.message }
    ({ s2 with isLoading := false }, .convertTextCall s.text s.voice :: call.2)

/-! ## Reading the event list -/

/-- Is the event a request through the fallback transport? -/
def Event.isFetch : Event → Bool
  | .fetch _ => true
  | _ => false

/-- Is the event a request through either transport? -/
def Event.isTransport : Event → Bool
  | .post _ => true
  | .fetch _ => true
  | .convertTextCall _ _ => false

/-- Number of times the fallback transport was invoked. -/
def fallbackCalls (events : List Event) : Nat := (events.filter Event.isFetch).length

/-- Number of transport attempts, primary and fallback together. -/
def transportAttempts (events : List Event) : Nat :=
  (events.filter Event.isTransport).length

/-- Number of calls of `TTSService.convertText`. -/
def convertTextCalls (events : List Event) : Nat :=
  (events.filter (fun e => !e.isTransport)).length

/-! ## The failure classes of the specification -/

/-- The error kinds the specification names for a primary failure. -/
inductive ErrorKind where
  | Timeout
  | InvalidRequest
  | AccessDenied
  | EndpointNotFound
  | ServerError
  | NetworkError
  | ClientConfigError
deriving DecidableEq

/-- The classification table as the specification words it (priority order, first
match wins): the class of a raw failure.  It is the yardstick the interceptor and
the retry decision are compared with, not a translation of the code. -/
def specErrorKind (raw : AxiosError) : ErrorKind :=
  if raw.code = some "ECONNABORTED" then .Timeout
  else
    match raw.response with
    | some response =>
      if response.status = 400 then .InvalidRequest
      else if response.status = 403 then .AccessDenied
      else if response.status = 404 then .EndpointNotFound
      else .ServerError
    | none => if raw.request then .NetworkError else .ClientConfigError

/-- The HTTP status a raw failure carries, if any. -/
def statusOf (raw : AxiosError) : Option Nat := raw.response.map (fun r => r.status)

/-- What reading the `error` field of the response body of a raw failure gives, if
there is a response. -/
def errorFieldOf (raw : AxiosError) : Option (Except JsError JsVal) :=
  raw.response.map (fun r => r.data.getProp "error")

/-- The character of a 6-bit group in the Base64 alphabet (RFC 4648). -/
def base64Char (n : Nat) : Char :=
  "ABCDEFGHIJKLMNOPQRSTUVWXYZabcdefghijklmnopqrstuvwxyz0123456789+/".data.getD n 'A'

/-- Base64 (RFC 4648) of a byte string; used only to say what the `body` of an
inline response encodes. -/
def base64Encode : List UInt8 → List Char
  | [] => []
  | [a] => [base64Char (a.toNat / 4), base64Char (a.toNat % 4 * 16), '=', '=']
  | [a, b] =>
    [base64Char (a.toNat / 4), base64Char (a.toNat % 4 * 16 + b.toNat / 16),
      base64Char (b.toNat % 16 * 4), '=']
  | a :: b :: d :: rest =>
    [base64Char (a.toNat / 4), base64Char (a.toNat % 4 * 16 + b.toNat / 16),
      base64Char (b.toNat % 16 * 4 + d.toNat / 64), base64Char (d.toNat % 64)]
      ++ base64Encode rest

/-! ## Helper lemmas -/

theorem includes_iff (s pat : String) :
    includes s pat = true ↔ ∃ t, t <:+ s.data ∧ pat.data <+: t := by
  unfold includes
  rw [List.any_eq_true]
  constructor
  · rintro ⟨t, ht, hp⟩
    exact ⟨t, (List.mem_tails _ _).1 ht, List.isPrefixOf_iff_prefix.1 hp⟩
  · rintro ⟨t, ht, hp⟩
    exact ⟨t, (List.mem_tails _ _).2 ht, List.isPrefixOf_iff_prefix.2 hp⟩

theorem includes_middle (a m b : String) : includes (a ++ m ++ b) m = true := by
  rw [includes_iff]
  refine ⟨m.data ++ b.data, ?_, List.prefix_append _ _⟩
  simp only [String.data_append, List.append_assoc]
  exact List.suffix_append _ _

theorem orElse_falsy (v d : JsVal) (h : v.truthy = false) : v.orElse d = d := by
  simp [JsVal.orElse, h]

theorem orElse_str (e : String) (d : JsVal) (h : e ≠ "") :
    (JsVal.str e).orElse d = .str e := by
  simp [JsVal.orElse, JsVal.truthy, h]

theorem orElse_string (v : JsVal) (d : String)
    (hv : v = .undefined ∨ ∃ s, v = .str s) (hd : d ≠ "") :
    ∃ t, t ≠ "" ∧ v.orElse (.str d) = .str t := by
  rcases hv with hv | ⟨s, hv⟩
  · subst hv
    exact ⟨d, hd, orElse_falsy _ _ rfl⟩
  · subst hv
    by_cases hs : s = ""
    · subst hs
      exact ⟨d, hd, orElse_falsy _ _ rfl⟩
    · exact ⟨s, hs, orElse_str s _ hs⟩

theorem throwNewError_str (t : String) : throwNewError (.str t) = ⟨t⟩ := rfl

theorem toStr_str (t : String) : (JsVal.str t).toStr = .ok t := by
  simp [JsVal.toStr]

theorem append_ne_empty (a b : String) (h : a ≠ "") : a ++ b ≠ "" := by
  intro hab
  apply h
  have := congrArg String.data hab
  rw [String.data_append] at this
  apply String.ext
  simpa using (List.append_eq_nil.1 this).1

theorem convertText_resolved (net : Network) (text : String) (voice : Option String)
    (response : AxiosResponse)
    (h : net.post ⟨text, voice.getD "Joanna"⟩ = .resolved response) :
    TTSService.convertText net text voice
      = (.ok response.data, [.post ⟨text, voice.getD "Joanna"⟩]) := by
  simp [TTSService.convertText, h]

theorem convertText_propagates (net : Network) (text : String) (voice : Option String)
    (raw : AxiosError)
    (h : net.post ⟨text, voice.getD "Joanna"⟩ = .rejected raw)
    (hc : includes (responseInterceptor raw).message "CORS" = false)
    (hn : includes (responseInterceptor raw).message "Network" = false) :
    TTSService.convertText net text voice
      = (.error (responseInterceptor raw), [.post ⟨text, voice.getD "Joanna"⟩]) := by
  simp [TTSService.convertText, h, hc, hn]

theorem convertText_retries (net : Network) (text : String) (voice : Option String)
    (raw : AxiosError)
    (h : net.post ⟨text, voice.getD "Joanna"⟩ = .rejected raw)
    (hr : includes (responseInterceptor raw).message "CORS" = true
      ∨ includes (responseInterceptor raw).message "Network" = true) :
    TTSService.convertText net text voice
      = ((TTSService.convertTextAlternative net text (some (voice.getD "Joanna"))).1,
          .post ⟨text, voice.getD "Joanna"⟩
            :: (TTSService.convertTextAlternative net text (some (voice.getD "Joanna"))).2) := by
  simp [TTSService.convertText, h, hr]

theorem convertTextAlternative_events (net : Network) (text voice : String) :
    (TTSService.convertTextAlternative net text (some voice)).2 = [.fetch ⟨text, voice⟩] := by
  unfold TTSService.convertTextAlternative
  simp only [Option.getD_some]
  split <;> rfl

theorem interceptor_timeout (raw : AxiosError) (h : raw.code = some "ECONNABORTED") :
    responseInterceptor raw = ⟨"Request timeout - please try again"⟩ := by
  simp [responseInterceptor, h]

theorem interceptor_403 (raw : AxiosError) (r : AxiosResponse)
    (hc : raw.code ≠ some "ECONNABORTED") (hr : raw.response = some r)
    (hs : r.status = 403) :
    responseInterceptor raw = ⟨"Access denied - CORS issue"⟩ := by
  simp [responseInterceptor, hc, hr, hs]

theorem interceptor_404 (raw : AxiosError) (r : AxiosResponse)
    (hc : raw.code ≠ some "ECONNABORTED") (hr : raw.response = some r)
    (hs : r.status = 404) :
    responseInterceptor raw = ⟨"API endpoint not found"⟩ := by
  simp [responseInterceptor, hc, hr, hs]

theorem interceptor_network (raw : AxiosError)
    (hc : raw.code ≠ some "ECONNABORTED") (hr : raw.response = none)
    (hq : raw.request = true) :
    responseInterceptor raw = ⟨"Network error - please check your connection"⟩ := by
  simp [responseInterceptor, hc, hr, hq]

theorem fallbackCalls_convertText (net : Network) (text : String) (voice : Option String)
    (raw : AxiosError) (h : net.post ⟨text, voice.getD "Joanna"⟩ = .rejected raw) :
    fallbackCalls (TTSService.convertText net text voice).2
      = if includes (responseInterceptor raw).message "CORS" = true
          ∨ includes (responseInterceptor raw).message "Network" = true then 1 else 0 := by
  by_cases hr : includes (responseInterceptor raw).message "CORS" = true
      ∨ includes (responseInterceptor raw).message "Network" = true
  · rw [convertText_retries net text voice raw h hr, convertTextAlternative_events, if_pos hr]
    rfl
  · have hc : includes (responseInterceptor raw).message "CORS" = false := by
      cases hh : includes (responseInterceptor raw).message "CORS"
      · rfl
      · exact absurd (Or.inl hh) hr
    have hn : includes (responseInterceptor raw).message "Network" = false := by
      cases hh : includes (responseInterceptor raw).message "Network"
      · rfl
      · exact absurd (Or.inr hh) hr
    rw [convertText_propagates net text voice raw h hc hn, if_neg hr]
    rfl

theorem interceptor_error_field (raw : AxiosError) (r : AxiosResponse) (e : String)
    (hc : raw.code ≠ some "ECONNABORTED") (hr : raw.response = some r)
    (hs : r.status = 400 ∨ r.status = 500)
    (hf : r.data.getProp "error" = .ok (.str e)) (he : e ≠ "") :
    responseInterceptor raw = ⟨e⟩ := by
  rcases hs with hs | hs <;>
    simp [responseInterceptor, hc, hr, hs, hf, orElse_str e _ he, throwNewError_str]

theorem interceptor_never_sent (raw : AxiosError)
    (hc : raw.code ≠ some "ECONNABORTED") (hr : raw.response = none)
    (hq : raw.request = false) (hm : raw.message ≠ "") :
    responseInterceptor raw = ⟨raw.message⟩ := by
  simp [responseInterceptor, hc, hr, hq, orElse_str raw.message _ hm, throwNewError_str]

theorem getProp_error_message_ne_empty (data : JsVal) (key : String) (e : JsError)
    (h : data.getProp key = .error e) : e.message ≠ "" := by
  cases data <;> simp [JsVal.getProp] at h
  all_goals
    subst h
    simp only [String.append_assoc]
    exact append_ne_empty _ _ (by decide)

theorem interceptor_message_ne_empty (raw : AxiosError)
    (hfield : ∀ r v, raw.response = some r → r.data.getProp "error" = .ok v →
      v = .undefined ∨ ∃ s, v = .str s) :
    (responseInterceptor raw).message ≠ "" := by
  unfold responseInterceptor
  split
  · decide
  · split
    · rename_i response hresp
      simp only
      split
      · split
        · rename_i e he
          exact getProp_error_message_ne_empty _ _ e he
        · rename_i v hv
          obtain ⟨t, ht, hvt⟩ :=
            orElse_string v "Invalid request" (hfield response v hresp hv) (by decide)
          rw [hvt, throwNewError_str]
          exact ht
      · split
        · decide
        · split
          · decide
          · split
            · split
              · rename_i e he
                exact getProp_error_message_ne_empty _ _ e he
              · rename_i v hv
                obtain ⟨t, ht, hvt⟩ :=
                  orElse_string v "Server error" (hfield response v hresp hv) (by decide)
                rw [hvt, throwNewError_str]
                exact ht
            · split
              · rename_i e he
                exact getProp_error_message_ne_empty _ _ e he
              · rename_i v hv
                obtain ⟨t, _, hvt⟩ :=
                  orElse_string v "Unknown error" (hfield response v hresp hv) (by decide)
                rw [hvt, toStr_str]
                simp only [String.append_assoc]
                exact append_ne_empty _ _ (by decide)
    · split
      · decide
      · obtain ⟨t, ht, hvt⟩ :=
          orElse_string (.str raw.message) "Unknown error occurred" (Or.inr ⟨_, rfl⟩)
            (by decide)
        rw [hvt, throwNewError_str]
        exact ht

theorem interceptor_determined (r1 r2 : AxiosError)
    (hk : specErrorKind r1 = specErrorKind r2)
    (hn : specErrorKind r1 ≠ .ClientConfigError)
    (hs : statusOf r1 = statusOf r2)
    (he : errorFieldOf r1 = errorFieldOf r2) :
    responseInterceptor r1 = responseInterceptor r2 := by
  obtain ⟨c1, resp1, q1, m1⟩ := r1
  obtain ⟨c2, resp2, q2, m2⟩ := r2
  by_cases h1 : c1 = some "ECONNABORTED" <;> by_cases h2 : c2 = some "ECONNABORTED"
  · simp [responseInterceptor, h1, h2]
  · exfalso
    cases resp2 with
    | none => cases q2 <;> simp [specErrorKind, h1, h2] at hk
    | some x =>
      have hne : specErrorKind ⟨c2, some x, q2, m2⟩ ≠ .Timeout := by
        simp only [specErrorKind, if_neg h2]
        split_ifs <;> decide
      apply hne
      rw [← hk]
      simp [specErrorKind, h1]
  · exfalso
    cases resp1 with
    | none => cases q1 <;> simp [specErrorKind, h1, h2] at hk
    | some x =>
      have hne : specErrorKind ⟨c1, some x, q1, m1⟩ ≠ .Timeout := by
        simp only [specErrorKind, if_neg h1]
        split_ifs <;> decide
      apply hne
      rw [hk]
      simp [specErrorKind, h2]
  · cases resp1 with
    | none =>
      cases resp2 with
      | none =>
        cases q1
        · simp [specErrorKind, h1] at hn
        · cases q2
          · simp [specErrorKind, h1, h2] at hk
          · simp [responseInterceptor, h1, h2]
      | some y => simp [statusOf] at hs
    | some x =>
      cases resp2 with
      | none => simp [statusOf] at hs
      | some y =>
        simp only [statusOf, Option.map_some', Option.some.injEq] at hs
        simp only [errorFieldOf, Option.map_some', Option.some.injEq] at he
        simp [responseInterceptor, h1, h2, hs, he]

theorem convertText_events_mem (net : Network) (text : String) (voice : Option String)
    (ev : Event) (h : ev ∈ (TTSService.convertText net text voice).2) :
    ev = .post ⟨text, voice.getD "Joanna"⟩ ∨ ev = .fetch ⟨text, voice.getD "Joanna"⟩ := by
  cases hp : net.post ⟨text, voice.getD "Joanna"⟩ with
  | resolved response =>
    rw [convertText_resolved net text voice response hp] at h
    simp at h
    exact Or.inl h
  | rejected raw =>
    by_cases hr : includes (responseInterceptor raw).message "CORS" = true
        ∨ includes (responseInterceptor raw).message "Network" = true
    · rw [convertText_retries net text voice raw hp hr, convertTextAlternative_events] at h
      simpa using h
    · have hc : includes (responseInterceptor raw).message "CORS" = false := by
        cases hh : includes (responseInterceptor raw).message "CORS"
        · rfl
        · exact absurd (Or.inl hh) hr
      have hn : includes (responseInterceptor raw).message "Network" = false := by
        cases hh : includes (responseInterceptor raw).message "Network"
        · rfl
        · exact absurd (Or.inr hh) hr
      rw [convertText_propagates net text voice raw hp hc hn] at h
      simp at h
      exact Or.inl h

theorem handleConvertText_empty (net : Network) (createObjectURL : Blob → String)
    (s : AppState) (h : trim s.text = "") :
    handleConvertText net createObjectURL s
      = ({ s with error := "Please type some text!" }, []) := by
  simp [handleConvertText, JsVal.truthy, h]

theorem handleConvertText_ok (net : Network) (createObjectURL : Blob → String)
    (s : AppState) (result url : JsVal) (h : trim s.text ≠ "")
    (hr : (TTSService.convertText net s.text (some s.voice)).1 = .ok result)
    (hi : inspectResult createObjectURL result = .ok url) :
    handleConvertText net createObjectURL s
      = ({ s with isLoading := false, error := "", audioUrl := url },
          .convertTextCall s.text s.voice
            :: (TTSService.convertText net s.text (some s.voice)).2) := by
  simp [handleConvertText, JsVal.truthy, h, hr, hi]

theorem handleConvertText_inspect_error (net : Network) (createObjectURL : Blob → String)
    (s : AppState) (result : JsVal) (e : JsError) (h : trim s.text ≠ "")
    (hr : (TTSService.convertText net s.text (some s.voice)).1 = .ok result)
    (hi : inspectResult createObjectURL result = .error e) :
    handleConvertText net createObjectURL s
      = ({ s with isLoading := false, audioUrl := .str "",
                  error := "Failed to generate audio: " ++ e.message },
          .convertTextCall s.text s.voice
            :: (TTSService.convertText net s.text (some s.voice)).2) := by
  simp [handleConvertText, JsVal.truthy, h, hr, hi]

theorem handleConvertText_events (net : Network) (createObjectURL : Blob → String)
    (s : AppState) (h : trim s.text ≠ "") :
    (handleConvertText net createObjectURL s).2
      = .convertTextCall s.text s.voice
          :: (TTSService.convertText net s.text (some s.voice)).2 := by
  simp [handleConvertText, JsVal.truthy, h]

/-! ## C8: priority order of the classifier -/

/-- C8: a raw failure carrying the timeout indicator (code ECONNABORTED) is
classified as the timeout error "Request timeout - please try again" whatever
response, status, body, request or message it also carries, and convertText then
propagates that error after the single primary attempt, without invoking the
fallback; a failure without the indicator that has a response is classified from
the response alone, whatever its request flag and message are. -/
theorem classifier_priority_order (raw : AxiosError) (net : Network) (text : String)
    (voice : Option String) :
    (raw.code = some "ECONNABORTED" →
      responseInterceptor raw = ⟨"Request timeout - please try again"⟩
      ∧ (net.post ⟨text, voice.getD "Joanna"⟩ = .rejected raw →
          TTSService.convertText net text voice
            = (.error ⟨"Request timeout - please try again"⟩,
                [.post ⟨text, voice.getD "Joanna"⟩])
          ∧ fallbackCalls (TTSService.convertText net text voice).2 = 0))
    ∧ (raw.code ≠ some "ECONNABORTED" → ∀ r, raw.response = some r →
        ∀ (request : Bool) (message : String),
          responseInterceptor { raw with request := request, message := message }
            = responseInterceptor ⟨raw.code, some r, false, ""⟩) := by
  refine ⟨fun hc => ⟨interceptor_timeout raw hc, fun hp => ?_⟩, fun hc r hr request message => ?_⟩
  · have hprop : TTSService.convertText net text voice
        = (.error ⟨"Request timeout - please try again"⟩,
            [.post ⟨text, voice.getD "Joanna"⟩]) := by
      have := convertText_propagates net text voice raw hp
        (by rw [interceptor_timeout raw hc]; decide)
        (by rw [interceptor_timeout raw hc]; decide)
      rw [this, interceptor_timeout raw hc]
    refine ⟨hprop, ?_⟩
    rw [hprop]
    rfl
  · simp [responseInterceptor, hc, hr]

theorem classifier_priority_order_witness :
    responseInterceptor ⟨some "ECONNABORTED", some ⟨403, .null⟩, true, "timeout of 30000ms exceeded"⟩
      = ⟨"Request timeout - please try again"⟩ :=
  ((classifier_priority_order
    ⟨some "ECONNABORTED", some ⟨403, .null⟩, true, "timeout of 30000ms exceeded"⟩
    ⟨fun _ => .rejected ⟨none, none, true, "Network Error"⟩, fun _ => .rejected ⟨"Failed to fetch"⟩⟩
    "Hello world" none).1 rfl).1

/-! ## C2: the fallback after an HTTP 403 -/

/-- C2: when the primary transport fails with HTTP 403 (a response with status
403, no timeout indicator) and the fallback responds with a 2xx status and a body
that parses to d, convertText makes the primary attempt, then exactly one
fallback attempt whose body carries the same text and voice, and returns d. -/
theorem fallback_after_403 (net : Network) (text : String) (voice : Option String)
    (raw : AxiosError) (r : AxiosResponse) (resp : FetchResponse) (d : JsVal)
    (hpost : net.post ⟨text, voice.getD "Joanna"⟩ = .rejected raw)
    (hcode : raw.code ≠ some "ECONNABORTED")
    (hresp : raw.response = some r)
    (hstatus : r.status = 403)
    (hfetch : net.fetch ⟨text, voice.getD "Joanna"⟩ = .resolved resp)
    (hok : resp.ok = true)
    (hjson : resp.json = .ok d) :
    TTSService.convertText net text voice
      = (.ok d, [.post ⟨text, voice.getD "Joanna"⟩, .fetch ⟨text, voice.getD "Joanna"⟩])
    ∧ fallbackCalls (TTSService.convertText net text voice).2 = 1 := by
  have h : TTSService.convertText net text voice
      = (.ok d, [.post ⟨text, voice.getD "Joanna"⟩, .fetch ⟨text, voice.getD "Joanna"⟩]) := by
    rw [convertText_retries net text voice raw hpost
      (Or.inl (by rw [interceptor_403 raw r hcode hresp hstatus]; decide))]
    simp [TTSService.convertTextAlternative, hfetch, hok, hjson]
  refine ⟨h, ?_⟩
  rw [h]
  rfl

theorem fallback_after_403_witness :
    TTSService.convertText
        ⟨fun _ => .rejected ⟨some "ERR_BAD_REQUEST", some ⟨403, .str ""⟩, true,
            "Request failed with status code 403"⟩,
          fun _ => .resolved ⟨200, .ok "",
            .ok (.obj [("audio_url", .str "https://example/a.mp3")])⟩⟩
        "Hello world" (some "Amy")
      = (.ok (.obj [("audio_url", .str "https://example/a.mp3")]),
          [.post ⟨"Hello world", "Amy"⟩, .fetch ⟨"Hello world", "Amy"⟩]) :=
  (fallback_after_403
    ⟨fun _ => .rejected ⟨some "ERR_BAD_REQUEST", some ⟨403, .str ""⟩, true,
        "Request failed with status code 403"⟩,
      fun _ => .resolved ⟨200, .ok "",
        .ok (.obj [("audio_url", .str "https://example/a.mp3")])⟩⟩
    "Hello world" (some "Amy")
    ⟨some "ERR_BAD_REQUEST", some ⟨403, .str ""⟩, true, "Request failed with status code 403"⟩
    ⟨403, .str ""⟩
    ⟨200, .ok "", .ok (.obj [("audio_url", .str "https://example/a.mp3")])⟩
    (.obj [("audio_url", .str "https://example/a.mp3")])
    rfl (by decide) rfl rfl rfl rfl rfl).1

/-! ## C3: a failed fallback is final -/

/-- C3: whenever convertText attempts the fallback, the events are exactly the
primary attempt followed by one fallback attempt (two transport attempts); if the
fallback then fails - fetch rejects with an error e, or responds with a non-2xx
status (whose body is read, or cannot be read and text() rejects with e), or its
body does not parse (json() rejects with e) - convertText fails with the message
"API call failed: " followed by the message of that failure (e.message, resp.
"HTTP <status>: <body text>").  No call of convertText makes more than two
transport attempts. -/
theorem fallback_failure_is_final (net : Network) (text : String) (voice : Option String) :
    (Event.fetch ⟨text, voice.getD "Joanna"⟩ ∈ (TTSService.convertText net text voice).2 →
      (TTSService.convertText net text voice).2
          = [.post ⟨text, voice.getD "Joanna"⟩, .fetch ⟨text, voice.getD "Joanna"⟩]
      ∧ transportAttempts (TTSService.convertText net text voice).2 = 2
      ∧ (∀ e, net.fetch ⟨text, voice.getD "Joanna"⟩ = .rejected e →
          (TTSService.convertText net text voice).1
            = .error ⟨"API call failed: " ++ e.message⟩)
      ∧ (∀ resp body, net.fetch ⟨text, voice.getD "Joanna"⟩ = .resolved resp →
          resp.ok = false → resp.text = .ok body →
          (TTSService.convertText net text voice).1
            = .error ⟨"API call failed: " ++
                ("HTTP " ++ toString resp.status ++ ": " ++ body)⟩)
      ∧ (∀ resp e, net.fetch ⟨text, voice.getD "Joanna"⟩ = .resolved resp →
          resp.ok = false → resp.text = .error e →
          (TTSService.convertText net text voice).1
            = .error ⟨"API call failed: " ++ e.message⟩)
      ∧ (∀ resp e, net.fetch ⟨text, voice.getD "Joanna"⟩ = .resolved resp → resp.ok = true →
          resp.json = .error e →
          (TTSService.convertText net text voice).1
            = .error ⟨"API call failed: " ++ e.message⟩))
    ∧ transportAttempts (TTSService.convertText net text voice).2 ≤ 2 := by
  cases hp : net.post ⟨text, voice.getD "Joanna"⟩ with
  | resolved response =>
    rw [convertText_resolved net text voice response hp]
    exact ⟨fun h => by simp at h, by simp [transportAttempts, Event.isTransport]⟩
  | rejected raw =>
    by_cases hr : includes (responseInterceptor raw).message "CORS" = true
        ∨ includes (responseInterceptor raw).message "Network" = true
    · rw [convertText_retries net text voice raw hp hr, convertTextAlternative_events]
      refine ⟨fun _ => ⟨rfl, rfl, ?_, ?_, ?_, ?_⟩,
        by simp [transportAttempts, Event.isTransport]⟩
      · intro e he
        simp [TTSService.convertTextAlternative, he]
      · intro resp body he hok ht
        simp [TTSService.convertTextAlternative, he, hok, ht]
      · intro resp e he hok ht
        simp [TTSService.convertTextAlternative, he, hok, ht]
      · intro resp e he hok hj
        simp [TTSService.convertTextAlternative, he, hok, hj]
    · have hc : includes (responseInterceptor raw).message "CORS" = false := by
        cases h : includes (responseInterceptor raw).message "CORS"
        · rfl
        · exact absurd (Or.inl h) hr
      have hn : includes (responseInterceptor raw).message "Network" = false := by
        cases h : includes (responseInterceptor raw).message "Network"
        · rfl
        · exact absurd (Or.inr h) hr
      rw [convertText_propagates net text voice raw hp hc hn]
      exact ⟨fun h => by simp at h, by simp [transportAttempts, Event.isTransport]⟩

theorem fallback_failure_is_final_witness :
    (TTSService.convertText
        ⟨fun _ => .rejected ⟨some "ERR_NETWORK", none, true, "Network Error"⟩,
          fun _ => .rejected ⟨"Failed to fetch"⟩⟩
        "Hello world" none).1
      = .error ⟨"API call failed: Failed to fetch"⟩ :=
  ((fallback_failure_is_final
    ⟨fun _ => .rejected ⟨some "ERR_NETWORK", none, true, "Network Error"⟩,
      fun _ => .rejected ⟨"Failed to fetch"⟩⟩
    "Hello world" none).1 (by decide)).2.2.1 ⟨"Failed to fetch"⟩ rfl

/-! ## C1: when the fallback is invoked -/

/-- C1, as stated, fails: an HTTP 400 whose body is {"error": "CORS preflight
rejected"} is of class InvalidRequest, yet convertText invokes the fallback
once. -/
theorem fallback_by_class_counterexample :
    specErrorKind ⟨some "ERR_BAD_REQUEST",
        some ⟨400, .obj [("error", .str "CORS preflight rejected")]⟩, true,
        "Request failed with status code 400"⟩ = .InvalidRequest
    ∧ TTSService.convertText
        ⟨fun _ => .rejected ⟨some "ERR_BAD_REQUEST",
            some ⟨400, .obj [("error", .str "CORS preflight rejected")]⟩, true,
            "Request failed with status code 400"⟩,
          fun _ => .resolved ⟨200, .ok "", .ok (.obj [("audio_url", .str "https://example/a.mp3")])⟩⟩
        "Hello world" none
      = (.ok (.obj [("audio_url", .str "https://example/a.mp3")]),
          [.post ⟨"Hello world", "Joanna"⟩, .fetch ⟨"Hello world", "Joanna"⟩]) := by
  constructor
  · decide
  · rfl

/-- C1, amended: after a primary failure convertText invokes the fallback (once)
exactly when the message of the classified error contains "CORS" or "Network",
and otherwise propagates the classified error with zero fallback calls.  The
fallback is therefore always invoked for HTTP 403 and for a request sent without
a response, never for a timeout or HTTP 404; for HTTP 400 and 500 with a
non-empty string `error` field, and for a request never sent with a non-empty
underlying message, it is invoked exactly when that text contains one of the
two words. -/
theorem fallback_iff_message_mentions (net : Network) (text : String) (voice : Option String)
    (raw : AxiosError) (hpost : net.post ⟨text, voice.getD "Joanna"⟩ = .rejected raw) :
    (fallbackCalls (TTSService.convertText net text voice).2 = 1
        ↔ (includes (responseInterceptor raw).message "CORS" = true
            ∨ includes (responseInterceptor raw).message "Network" = true))
    ∧ (fallbackCalls (TTSService.convertText net text voice).2 = 0
        ↔ (includes (responseInterceptor raw).message "CORS" = false
            ∧ includes (responseInterceptor raw).message "Network" = false))
    ∧ (fallbackCalls (TTSService.convertText net text voice).2 = 0 →
        TTSService.convertText net text voice
          = (.error (responseInterceptor raw), [.post ⟨text, voice.getD "Joanna"⟩]))
    ∧ (raw.code = some "ECONNABORTED" →
        fallbackCalls (TTSService.convertText net text voice).2 = 0)
    ∧ (raw.code ≠ some "ECONNABORTED" → ∀ r, raw.response = some r → r.status = 403 →
        fallbackCalls (TTSService.convertText net text voice).2 = 1)
    ∧ (raw.code ≠ some "ECONNABORTED" → ∀ r, raw.response = some r → r.status = 404 →
        fallbackCalls (TTSService.convertText net text voice).2 = 0)
    ∧ (raw.code ≠ some "ECONNABORTED" → raw.response = none → raw.request = true →
        fallbackCalls (TTSService.convertText net text voice).2 = 1)
    ∧ (raw.code ≠ some "ECONNABORTED" → ∀ r, raw.response = some r →
        r.status = 400 ∨ r.status = 500 →
        ∀ e, r.data.getProp "error" = .ok (.str e) → e ≠ "" →
          (fallbackCalls (TTSService.convertText net text voice).2 = 1
            ↔ (includes e "CORS" = true ∨ includes e "Network" = true)))
    ∧ (raw.code ≠ some "ECONNABORTED" → raw.response = none → raw.request = false →
        raw.message ≠ "" →
          (fallbackCalls (TTSService.convertText net text voice).2 = 1
            ↔ (includes raw.message "CORS" = true ∨ includes raw.message "Network" = true))) := by
  have hcalls := fallbackCalls_convertText net text voice raw hpost
  have hiff : fallbackCalls (TTSService.convertText net text voice).2 = 1
      ↔ (includes (responseInterceptor raw).message "CORS" = true
          ∨ includes (responseInterceptor raw).message "Network" = true) := by
    rw [hcalls]
    split <;> simp_all
  have hzero : fallbackCalls (TTSService.convertText net text voice).2 = 0
      ↔ (includes (responseInterceptor raw).message "CORS" = false
          ∧ includes (responseInterceptor raw).message "Network" = false) := by
    rw [hcalls]
    cases includes (responseInterceptor raw).message "CORS" <;>
      cases includes (responseInterceptor raw).message "Network" <;> simp
  refine ⟨hiff, hzero, ?_, ?_, ?_, ?_, ?_, ?_, ?_⟩
  · intro h0
    exact convertText_propagates net text voice raw hpost (hzero.1 h0).1 (hzero.1 h0).2
  · intro hc
    rw [hzero, interceptor_timeout raw hc]
    decide
  · intro hc r hr hs
    rw [hiff, interceptor_403 raw r hc hr hs]
    decide
  · intro hc r hr hs
    rw [hzero, interceptor_404 raw r hc hr hs]
    decide
  · intro hc hr hq
    rw [hiff, interceptor_network raw hc hr hq]
    decide
  · intro hc r hr hs e hf he
    rw [hiff, interceptor_error_field raw r e hc hr hs hf he]
  · intro hc hr hq hm
    rw [hiff, interceptor_never_sent raw hc hr hq hm]

theorem fallback_iff_message_mentions_witness :
    fallbackCalls (TTSService.convertText
        ⟨fun _ => .rejected ⟨some "ERR_BAD_RESPONSE",
            some ⟨500, .obj [("error", .str "Polly synthesis failed")]⟩, true,
            "Request failed with status code 500"⟩,
          fun _ => .rejected ⟨"Failed to fetch"⟩⟩
        "Hello world" (some "Brian")).2 = 0 :=
  (fallback_iff_message_mentions
    ⟨fun _ => .rejected ⟨some "ERR_BAD_RESPONSE",
        some ⟨500, .obj [("error", .str "Polly synthesis failed")]⟩, true,
        "Request failed with status code 500"⟩,
      fun _ => .rejected ⟨"Failed to fetch"⟩⟩
    "Hello world" (some "Brian")
    ⟨some "ERR_BAD_RESPONSE", some ⟨500, .obj [("error", .str "Polly synthesis failed")]⟩, true,
      "Request failed with status code 500"⟩
    rfl).2.1.2 (by decide)

/-! ## C7: the message of a classified HTTP failure -/

/-- C7, as stated, fails: for HTTP 400 with the body {"error": ""} the body has
an `error` field, yet the message is the generic "Invalid request", not the
value of the field; for HTTP 502 with the body `null` the message is that of the
TypeError raised by reading `data.error`, which does not contain "502"; and for
HTTP 502 with the body {"error": {"toString": 1}} the template literal cannot
convert the field to a string, and the message is that of its TypeError, which
does not contain "502" either. -/
theorem classifier_message_counterexample :
    (JsVal.obj [("error", .str "")]).getProp "error" = .ok (.str "")
    ∧ (responseInterceptor ⟨some "ERR_BAD_REQUEST", some ⟨400, .obj [("error", .str "")]⟩, true,
        "Request failed with status code 400"⟩).message = "Invalid request"
    ∧ (responseInterceptor ⟨some "ERR_BAD_RESPONSE", some ⟨502, .null⟩, true,
        "Request failed with status code 502"⟩).message
        = "Cannot read properties of null (reading 'error')"
    ∧ includes (responseInterceptor ⟨some "ERR_BAD_RESPONSE", some ⟨502, .null⟩, true,
        "Request failed with status code 502"⟩).message "502" = false
    ∧ (responseInterceptor ⟨some "ERR_BAD_RESPONSE",
        some ⟨502, .obj [("error", .obj [("toString", .num 1 (by decide))])]⟩, true,
        "Request failed with status code 502"⟩).message
        = "Cannot convert object to primitive value"
    ∧ includes (responseInterceptor ⟨some "ERR_BAD_RESPONSE",
        some ⟨502, .obj [("error", .obj [("toString", .num 1 (by decide))])]⟩, true,
        "Request failed with status code 502"⟩).message "502" = false := by
  refine ⟨rfl, ?_, ?_, ?_, ?_, ?_⟩ <;> decide

/-- C7, amended: for a primary failure without the timeout indicator whose
response has a body other than `null`, with status 400 or 500 the message is the
body's `error` field when that is a non-empty string, and the generic message
("Invalid request" for 400, "Server error" for 500) when the field is absent or
falsy (the empty string included); with any status s outside 400, 403, 404 and
500, when the `error` field - or, the field being absent or falsy, the default
text "Unknown error" - converts to a string, the message is "Server error (s): "
followed by that string and so contains the decimal rendering of s, and when the
conversion throws (a field that is an object with an own `toString` property, or
an array holding one) the classifier throws the TypeError of the conversion. -/
theorem classifier_message (raw : AxiosError) (r : AxiosResponse)
    (hc : raw.code ≠ some "ECONNABORTED") (hr : raw.response = some r) :
    (r.status = 400 ∨ r.status = 500 → ∀ e, r.data.getProp "error" = .ok (.str e) → e ≠ "" →
        (responseInterceptor raw).message = e)
    ∧ (r.status = 400 → ∀ v, r.data.getProp "error" = .ok v → v.truthy = false →
        (responseInterceptor raw).message = "Invalid request")
    ∧ (r.status = 500 → ∀ v, r.data.getProp "error" = .ok v → v.truthy = false →
        (responseInterceptor raw).message = "Server error")
    ∧ (r.status ≠ 400 → r.status ≠ 403 → r.status ≠ 404 → r.status ≠ 500 →
        ∀ v detail, r.data.getProp "error" = .ok v →
          (v.orElse (.str "Unknown error")).toStr = .ok detail →
          (responseInterceptor raw).message
              = "Server error (" ++ toString r.status ++ "): " ++ detail
          ∧ includes (responseInterceptor raw).message (toString r.status) = true)
    ∧ (r.status ≠ 400 → r.status ≠ 403 → r.status ≠ 404 → r.status ≠ 500 →
        ∀ v e, r.data.getProp "error" = .ok v →
          (v.orElse (.str "Unknown error")).toStr = .error e →
          responseInterceptor raw = e) := by
  refine ⟨?_, ?_, ?_, ?_, ?_⟩
  · intro hs e hf he
    rw [interceptor_error_field raw r e hc hr hs hf he]
  · intro hs v hf hv
    simp [responseInterceptor, hc, hr, hs, hf, orElse_falsy v _ hv, throwNewError_str]
  · intro hs v hf hv
    simp [responseInterceptor, hc, hr, hs, hf, orElse_falsy v _ hv, throwNewError_str]
  · intro h400 h403 h404 h500 v detail hf hd
    have hm : (responseInterceptor raw).message
        = "Server error (" ++ toString r.status ++ "): " ++ detail := by
      simp [responseInterceptor, hc, hr, h400, h403, h404, h500, hf, hd]
    refine ⟨hm, ?_⟩
    rw [hm, String.append_assoc, String.append_assoc, ← String.append_assoc]
    exact includes_middle _ _ _
  · intro h400 h403 h404 h500 v e hf he
    simp [responseInterceptor, hc, hr, h400, h403, h404, h500, hf, he]

theorem classifier_message_witness :
    (responseInterceptor ⟨some "ERR_BAD_REQUEST",
        some ⟨400, .obj [("error", .str "text too long")]⟩, true,
        "Request failed with status code 400"⟩).message = "text too long" :=
  (classifier_message
    ⟨some "ERR_BAD_REQUEST", some ⟨400, .obj [("error", .str "text too long")]⟩, true,
      "Request failed with status code 400"⟩
    ⟨400, .obj [("error", .str "text too long")]⟩ (by decide) rfl).1
    (Or.inl rfl) "text too long" rfl (by decide)

/-! ## C9: what reaches the message delivered to the caller -/

/-- C9, as stated, fails.  Two requests that were never sent agree on class
(ClientConfigError), status (none) and `error` field (none) and differ only in
the underlying message, and the caller receives the two underlying messages.
Two runs whose fallback answers 503 differ only in the raw body text, and the
caller receives that text.  And HTTP 400 with the body {"error": []} delivers an
error whose message is empty. -/
theorem caller_message_counterexample :
    specErrorKind ⟨none, none, false, "Invalid URL"⟩
        = specErrorKind ⟨none, none, false, "Unsupported protocol ftp:"⟩
    ∧ statusOf ⟨none, none, false, "Invalid URL"⟩
        = statusOf ⟨none, none, false, "Unsupported protocol ftp:"⟩
    ∧ errorFieldOf ⟨none, none, false, "Invalid URL"⟩
        = errorFieldOf ⟨none, none, false, "Unsupported protocol ftp:"⟩
    ∧ (TTSService.convertText
        ⟨fun _ => .rejected ⟨none, none, false, "Invalid URL"⟩,
          fun _ => .rejected ⟨"Failed to fetch"⟩⟩ "Hello world" none).1
        = .error ⟨"Invalid URL"⟩
    ∧ (TTSService.convertText
        ⟨fun _ => .rejected ⟨none, none, false, "Unsupported protocol ftp:"⟩,
          fun _ => .rejected ⟨"Failed to fetch"⟩⟩ "Hello world" none).1
        = .error ⟨"Unsupported protocol ftp:"⟩
    ∧ (TTSService.convertText
        ⟨fun _ => .rejected ⟨some "ERR_NETWORK", none, true, "Network Error"⟩,
          fun _ => .resolved ⟨503, .ok "upstream A down", .error ⟨"Unexpected token u"⟩⟩⟩
        "Hello world" none).1
        = .error ⟨"API call failed: HTTP 503: upstream A down"⟩
    ∧ (TTSService.convertText
        ⟨fun _ => .rejected ⟨some "ERR_NETWORK", none, true, "Network Error"⟩,
          fun _ => .resolved ⟨503, .ok "upstream B down", .error ⟨"Unexpected token u"⟩⟩⟩
        "Hello world" none).1
        = .error ⟨"API call failed: HTTP 503: upstream B down"⟩
    ∧ (TTSService.convertText
        ⟨fun _ => .rejected ⟨some "ERR_BAD_REQUEST", some ⟨400, .obj [("error", .arr [])]⟩, true,
            "Request failed with status code 400"⟩,
          fun _ => .rejected ⟨"Failed to fetch"⟩⟩ "Hello world" none).1
        = .error ⟨""⟩ :=
  ⟨rfl, rfl, rfl, rfl, rfl, rfl, rfl, rfl⟩

/-- C9, amended: for two runs whose primary failures agree on the failure class,
the HTTP status and the body's `error` field, and whose class is not
ClientConfigError (request never sent), the classified error is the same whatever
the underlying exception messages and the rest of the raw bodies are, so both
runs take the same retry decision and, when the fallback is not invoked, deliver
the same error.  When the body's `error` field of the primary failure is absent
or a string, every error convertText delivers has a non-empty message.  Raw
detail does reach the caller in two places.  For a request never sent (no
timeout indicator, no response, no request) the error delivered is the
underlying message itself when that is non-empty and contains neither "CORS" nor
"Network", and "Unknown error occurred" when it is empty.  And when the fallback
is invoked and fails, the message delivered is "API call failed: " followed by
the raw failure message: the message fetch, text() or json() rejected with, or
"HTTP <status>: <raw body text>" for a non-2xx status. -/
theorem caller_message_determined (net1 net2 : Network) (text : String) (voice : Option String)
    (r1 r2 : AxiosError)
    (h1 : net1.post ⟨text, voice.getD "Joanna"⟩ = .rejected r1)
    (h2 : net2.post ⟨text, voice.getD "Joanna"⟩ = .rejected r2) :
    (specErrorKind r1 = specErrorKind r2 → specErrorKind r1 ≠ .ClientConfigError →
      statusOf r1 = statusOf r2 → errorFieldOf r1 = errorFieldOf r2 →
        responseInterceptor r1 = responseInterceptor r2
        ∧ fallbackCalls (TTSService.convertText net1 text voice).2
            = fallbackCalls (TTSService.convertText net2 text voice).2
        ∧ (fallbackCalls (TTSService.convertText net1 text voice).2 = 0 →
            TTSService.convertText net1 text voice = TTSService.convertText net2 text voice))
    ∧ ((∀ r v, r1.response = some r → r.data.getProp "error" = .ok v →
          v = .undefined ∨ ∃ s, v = .str s) →
        ∀ e, (TTSService.convertText net1 text voice).1 = .error e → e.message ≠ "")
    ∧ (r1.code ≠ some "ECONNABORTED" → r1.response = none → r1.request = false →
        (r1.message ≠ "" → includes r1.message "CORS" = false →
          includes r1.message "Network" = false →
          TTSService.convertText net1 text voice
            = (.error ⟨r1.message⟩, [.post ⟨text, voice.getD "Joanna"⟩]))
        ∧ (r1.message = "" →
          TTSService.convertText net1 text voice
            = (.error ⟨"Unknown error occurred"⟩, [.post ⟨text, voice.getD "Joanna"⟩])))
    ∧ (fallbackCalls (TTSService.convertText net1 text voice).2 = 1 →
        (∀ e, net1.fetch ⟨text, voice.getD "Joanna"⟩ = .rejected e →
          (TTSService.convertText net1 text voice).1
            = .error ⟨"API call failed: " ++ e.message⟩)
        ∧ (∀ resp body, net1.fetch ⟨text, voice.getD "Joanna"⟩ = .resolved resp →
            resp.ok = false → resp.text = .ok body →
            (TTSService.convertText net1 text voice).1
              = .error ⟨"API call failed: " ++
                  ("HTTP " ++ toString resp.status ++ ": " ++ body)⟩)
        ∧ (∀ resp e, net1.fetch ⟨text, voice.getD "Joanna"⟩ = .resolved resp →
            resp.ok = false → resp.text = .error e →
            (TTSService.convertText net1 text voice).1
              = .error ⟨"API call failed: " ++ e.message⟩)
        ∧ (∀ resp e, net1.fetch ⟨text, voice.getD "Joanna"⟩ = .resolved resp →
            resp.ok = true → resp.json = .error e →
            (TTSService.convertText net1 text voice).1
              = .error ⟨"API call failed: " ++ e.message⟩)) := by
  refine ⟨?_, ?_, ?_, ?_⟩
  · intro hk hn hs he
    have hi := interceptor_determined r1 r2 hk hn hs he
    have hc1 := fallbackCalls_convertText net1 text voice r1 h1
    have hc2 := fallbackCalls_convertText net2 text voice r2 h2
    rw [hi] at hc1
    refine ⟨hi, by rw [hc1, hc2], fun h0 => ?_⟩
    have h0' : fallbackCalls (TTSService.convertText net2 text voice).2 = 0 := by
      rw [hc2, ← hc1]; exact h0
    rw [hc1] at h0
    have hc : includes (responseInterceptor r2).message "CORS" = false := by
      cases hh : includes (responseInterceptor r2).message "CORS"
      · rfl
      · simp [hh] at h0
    have hn2 : includes (responseInterceptor r2).message "Network" = false := by
      cases hh : includes (responseInterceptor r2).message "Network"
      · rfl
      · simp [hh] at h0
    rw [convertText_propagates net2 text voice r2 h2 hc hn2,
      convertText_propagates net1 text voice r1 h1 (hi ▸ hc) (hi ▸ hn2), hi]
  · intro hfield e he
    by_cases hr : includes (responseInterceptor r1).message "CORS" = true
        ∨ includes (responseInterceptor r1).message "Network" = true
    · rw [convertText_retries net1 text voice r1 h1 hr] at he
      simp only [TTSService.convertTextAlternative] at he
      split at he
      · simp at he
      · simp only [Except.error.injEq] at he
        rw [← he]
        exact append_ne_empty _ _ (by decide)
    · have hc : includes (responseInterceptor r1).message "CORS" = false := by
        cases hh : includes (responseInterceptor r1).message "CORS"
        · rfl
        · exact absurd (Or.inl hh) hr
      have hn : includes (responseInterceptor r1).message "Network" = false := by
        cases hh : includes (responseInterceptor r1).message "Network"
        · rfl
        · exact absurd (Or.inr hh) hr
      rw [convertText_propagates net1 text voice r1 h1 hc hn] at he
      simp only [Except.error.injEq] at he
      rw [← he]
      exact interceptor_message_ne_empty r1 hfield
  · intro hc hr hq
    constructor
    · intro hm hcors hnet
      have hi := interceptor_never_sent r1 hc hr hq hm
      rw [convertText_propagates net1 text voice r1 h1 (by rw [hi]; exact hcors)
        (by rw [hi]; exact hnet), hi]
    · intro hm
      have hi : responseInterceptor r1 = ⟨"Unknown error occurred"⟩ := by
        simp [responseInterceptor, hc, hr, hq, hm, orElse_falsy (.str "") _ rfl,
          throwNewError_str]
      rw [convertText_propagates net1 text voice r1 h1 (by rw [hi]; decide)
        (by rw [hi]; decide), hi]
  · intro hcalls
    have hr : includes (responseInterceptor r1).message "CORS" = true
        ∨ includes (responseInterceptor r1).message "Network" = true := by
      by_contra hno
      rw [fallbackCalls_convertText net1 text voice r1 h1, if_neg hno] at hcalls
      exact absurd hcalls (by decide)
    rw [convertText_retries net1 text voice r1 h1 hr]
    refine ⟨?_, ?_, ?_, ?_⟩
    · intro e he
      simp [TTSService.convertTextAlternative, he]
    · intro resp body he hok ht
      simp [TTSService.convertTextAlternative, he, hok, ht]
    · intro resp e he hok ht
      simp [TTSService.convertTextAlternative, he, hok, ht]
    · intro resp e he hok hj
      simp [TTSService.convertTextAlternative, he, hok, hj]

theorem caller_message_determined_witness :
    responseInterceptor ⟨some "ERR_BAD_RESPONSE", some ⟨500, .obj [("error", .str "boom")]⟩, true,
        "Request failed with status code 500"⟩
      = responseInterceptor ⟨none, some ⟨500, .obj [("error", .str "boom"), ("trace", .num 7 (by decide))]⟩,
        false, "socket hang up"⟩ :=
  ((caller_message_determined
    ⟨fun _ => .rejected ⟨some "ERR_BAD_RESPONSE", some ⟨500, .obj [("error", .str "boom")]⟩, true,
        "Request failed with status code 500"⟩, fun _ => .rejected ⟨"Failed to fetch"⟩⟩
    ⟨fun _ => .rejected ⟨none, some ⟨500, .obj [("error", .str "boom"), ("trace", .num 7 (by decide))]⟩,
        false, "socket hang up"⟩, fun _ => .rejected ⟨"Failed to fetch"⟩⟩
    "Hello world" none
    ⟨some "ERR_BAD_RESPONSE", some ⟨500, .obj [("error", .str "boom")]⟩, true,
      "Request failed with status code 500"⟩
    ⟨none, some ⟨500, .obj [("error", .str "boom"), ("trace", .num 7 (by decide))]⟩, false, "socket hang up"⟩
    rfl rfl).1 (by decide) (by decide) rfl rfl).1

/-! ## C10: empty text is rejected by the caller -/

/-- C10: when the text is empty after trimming, handleConvertText sets the error
to "Please type some text!", leaves the audio URL, the loading flag, the text and
the voice unchanged and causes no event at all: zero calls of convertText and
zero transport attempts.  Conversely every request that handleConvertText sends
through either transport carries the text of the state, which is non-empty after
trimming. -/
theorem empty_text_rejected (net : Network) (createObjectURL : Blob → String) (s : AppState) :
    (trim s.text = "" →
      (handleConvertText net createObjectURL s).1.error = "Please type some text!"
      ∧ (handleConvertText net createObjectURL s).1.audioUrl = s.audioUrl
      ∧ (handleConvertText net createObjectURL s).1.isLoading = s.isLoading
      ∧ (handleConvertText net createObjectURL s).1.text = s.text
      ∧ (handleConvertText net createObjectURL s).1.voice = s.voice
      ∧ (handleConvertText net createObjectURL s).2 = []
      ∧ convertTextCalls (handleConvertText net createObjectURL s).2 = 0
      ∧ transportAttempts (handleConvertText net createObjectURL s).2 = 0)
    ∧ (∀ body, (Event.post body ∈ (handleConvertText net createObjectURL s).2
          ∨ Event.fetch body ∈ (handleConvertText net createObjectURL s).2) →
        body.text = s.text ∧ trim body.text ≠ "") := by
  constructor
  · intro h
    rw [handleConvertText_empty net createObjectURL s h]
    exact ⟨rfl, rfl, rfl, rfl, rfl, rfl, rfl, rfl⟩
  · intro body hb
    by_cases h : trim s.text = ""
    · rw [handleConvertText_empty net createObjectURL s h] at hb
      simp at hb
    · rw [handleConvertText_events net createObjectURL s h] at hb
      have hbody : body = ⟨s.text, s.voice⟩ := by
        rcases hb with hb | hb
        · have hm : Event.post body ∈ (TTSService.convertText net s.text (some s.voice)).2 := by
            simpa using hb
          rcases convertText_events_mem net s.text (some s.voice) _ hm with h1 | h1
          · simpa using h1
          · simp at h1
        · have hm : Event.fetch body ∈ (TTSService.convertText net s.text (some s.voice)).2 := by
            simpa using hb
          rcases convertText_events_mem net s.text (some s.voice) _ hm with h1 | h1
          · simp at h1
          · simpa using h1
      subst hbody
      exact ⟨rfl, h⟩

theorem empty_text_rejected_witness :
    (handleConvertText
      ⟨fun _ => .resolved ⟨200, .obj [("audio_url", .str "https://example/a.mp3")]⟩,
        fun _ => .rejected ⟨"Failed to fetch"⟩⟩
      (fun _ => "blob:https://tts.example/0001")
      ⟨" \t\n ", "Joanna", .str "https://example/old.mp3", false, ""⟩).2 = [] :=
  ((empty_text_rejected
    ⟨fun _ => .resolved ⟨200, .obj [("audio_url", .str "https://example/a.mp3")]⟩,
      fun _ => .rejected ⟨"Failed to fetch"⟩⟩
    (fun _ => "blob:https://tts.example/0001")
    ⟨" \t\n ", "Joanna", .str "https://example/old.mp3", false, ""⟩).1 (by decide)).2.2.2.2.2.1

/-! ## C4: the URL shape -/

/-- C4, as stated, fails for the empty string: the response {"audio_url": ""}
contains an `audio_url` field with a string value, yet the handler ends with the
error "Failed to generate audio: Unexpected response format"; and the response
{"audio_url": "", "isBase64Encoded": true, "body": "QVVESU8="} ends with a blob
URL as the audio source. -/
theorem url_result_counterexample :
    (handleConvertText
      ⟨fun _ => .resolved ⟨200, .obj [("audio_url", .str "")]⟩,
        fun _ => .rejected ⟨"Failed to fetch"⟩⟩
      (fun _ => "blob:https://tts.example/0001")
      ⟨"Hello world", "Joanna", .str "", false, ""⟩).1.error
      = "Failed to generate audio: Unexpected response format"
    ∧ (handleConvertText
      ⟨fun _ => .resolved ⟨200, .obj [("audio_url", .str ""), ("isBase64Encoded", .bool true),
          ("body", .str "QVVESU8=")]⟩,
        fun _ => .rejected ⟨"Failed to fetch"⟩⟩
      (fun _ => "blob:https://tts.example/0001")
      ⟨"Hello world", "Joanna", .str "", false, ""⟩).1.audioUrl
      = .str "blob:https://tts.example/0001" :=
  ⟨rfl, rfl⟩

/-- C4, amended: when convertText returns a response whose `audio_url` field is a
non-empty string u - whatever else the response carries - the shape inspection
yields u, and the handler ends with audio URL u, no error and the loading flag
cleared. -/
theorem url_result (net : Network) (createObjectURL : Blob → String) (s : AppState)
    (result : JsVal) (u : String)
    (ht : trim s.text ≠ "")
    (hr : (TTSService.convertText net s.text (some s.voice)).1 = .ok result)
    (hu : result.getProp "audio_url" = .ok (.str u))
    (hne : u ≠ "") :
    inspectResult createObjectURL result = .ok (.str u)
    ∧ (handleConvertText net createObjectURL s).1.audioUrl = .str u
    ∧ (handleConvertText net createObjectURL s).1.error = ""
    ∧ (handleConvertText net createObjectURL s).1.isLoading = false := by
  have hi : inspectResult createObjectURL result = .ok (.str u) := by
    simp [inspectResult, hu, JsVal.truthy, hne]
  rw [handleConvertText_ok net createObjectURL s result (.str u) ht hr hi]
  exact ⟨hi, rfl, rfl, rfl⟩

theorem url_result_witness :
    (handleConvertText
      ⟨fun _ => .resolved ⟨200, .obj [("audio_url", .str "https://example/a.mp3")]⟩,
        fun _ => .rejected ⟨"Failed to fetch"⟩⟩
      (fun _ => "blob:https://tts.example/0001")
      ⟨"Hello world", "Joanna", .str "", false, ""⟩).1.audioUrl
      = .str "https://example/a.mp3" :=
  (url_result
    ⟨fun _ => .resolved ⟨200, .obj [("audio_url", .str "https://example/a.mp3")]⟩,
      fun _ => .rejected ⟨"Failed to fetch"⟩⟩
    (fun _ => "blob:https://tts.example/0001")
    ⟨"Hello world", "Joanna", .str "", false, ""⟩
    (.obj [("audio_url", .str "https://example/a.mp3")]) "https://example/a.mp3"
    (by decide) rfl rfl (by decide)).2.1

/-! ## C5: the inline shape -/

/-- C5 fails on the code: the response {"isBase64Encoded": true, "body":
"QVVESU8="} - "QVVESU8=" being the base64 encoding of the five bytes of "AUDIO" -
makes the handler wrap the eight characters of the base64 text themselves in the
blob of type "audio/mpeg": the bytes of the inline result are those of
"QVVESU8=", not the decoded bytes of "AUDIO".  For every body text the blob
holds the UTF-8 bytes of the text as it is. -/
theorem inline_body_not_decoded (createObjectURL : Blob → String) :
    base64Encode ("AUDIO".data.flatMap String.utf8EncodeChar) = "QVVESU8=".data
    ∧ inspectResult createObjectURL
        (.obj [("isBase64Encoded", .bool true), ("body", .str "QVVESU8=")])
      = .ok (.str (createObjectURL ⟨[81, 86, 86, 69, 83, 85, 56, 61], "audio/mpeg"⟩))
    ∧ (handleConvertText
        ⟨fun _ => .resolved ⟨200, .obj [("isBase64Encoded", .bool true),
            ("body", .str "QVVESU8=")]⟩,
          fun _ => .rejected ⟨"Failed to fetch"⟩⟩
        createObjectURL
        ⟨"Hello world", "Joanna", .str "", false, ""⟩).1.audioUrl
      = .str (createObjectURL ⟨[81, 86, 86, 69, 83, 85, 56, 61], "audio/mpeg"⟩)
    ∧ newBlob (.str "QVVESU8=") "audio/mpeg"
      = .ok ⟨"QVVESU8=".data.flatMap String.utf8EncodeChar, "audio/mpeg"⟩
    ∧ newBlob (.str "QVVESU8=") "audio/mpeg"
      ≠ .ok ⟨"AUDIO".data.flatMap String.utf8EncodeChar, "audio/mpeg"⟩
    ∧ (∀ body : String, inspectResult createObjectURL
          (.obj [("isBase64Encoded", .bool true), ("body", .str body)])
        = .ok (.str (createObjectURL
            ⟨body.data.flatMap String.utf8EncodeChar, "audio/mpeg"⟩))) := by
  refine ⟨by decide, rfl, rfl, rfl, ?_, fun body => rfl⟩
  intro h
  have hb : (⟨"QVVESU8=".data.flatMap String.utf8EncodeChar, "audio/mpeg"⟩ : Blob)
      = ⟨"AUDIO".data.flatMap String.utf8EncodeChar, "audio/mpeg"⟩ := Except.ok.inj h
  exact absurd hb (by decide)

/-! ## C6: neither shape -/

/-- C6, as stated, fails: the response {"isBase64Encoded": true}, which has no
body field, does not fail - the handler ends without an error and with the URL
of a blob holding the nine characters of "undefined"; and the response `null`,
which has neither field, fails with the TypeError of the property read, not with
"Unexpected response format".  The stand-in for URL.createObjectURL used here
spells the bytes of the blob in the URL it returns. -/
theorem unexpected_format_counterexample :
    (handleConvertText
      ⟨fun _ => .resolved ⟨200, .obj [("isBase64Encoded", .bool true)]⟩,
        fun _ => .rejected ⟨"Failed to fetch"⟩⟩
      (fun b => "blob:" ++ String.mk (b.bytes.map (fun c => Char.ofNat c.toNat)))
      ⟨"Hello world", "Joanna", .str "", false, ""⟩).1.error = ""
    ∧ (handleConvertText
      ⟨fun _ => .resolved ⟨200, .obj [("isBase64Encoded", .bool true)]⟩,
        fun _ => .rejected ⟨"Failed to fetch"⟩⟩
      (fun b => "blob:" ++ String.mk (b.bytes.map (fun c => Char.ofNat c.toNat)))
      ⟨"Hello world", "Joanna", .str "", false, ""⟩).1.audioUrl = .str "blob:undefined"
    ∧ (handleConvertText
      ⟨fun _ => .resolved ⟨200, .null⟩, fun _ => .rejected ⟨"Failed to fetch"⟩⟩
      (fun b => "blob:" ++ String.mk (b.bytes.map (fun c => Char.ofNat c.toNat)))
      ⟨"Hello world", "Joanna", .str "", false, ""⟩).1.error
      = "Failed to generate audio: Cannot read properties of null (reading 'audio_url')" :=
  ⟨rfl, rfl, rfl⟩

/-- C6, amended: when convertText returns a response other than `null` whose
`audio_url` field and `isBase64Encoded` field are both absent or falsy - {}
included - the shape inspection throws "Unexpected response format", the handler
ends with the error "Failed to generate audio: Unexpected response format", an
empty audio URL and the loading flag cleared, and it causes nothing beyond the
call of convertText: after a successful primary attempt that is the one primary
request and no fallback request. -/
theorem unexpected_format (net : Network) (createObjectURL : Blob → String) (s : AppState)
    (result a f : JsVal)
    (ht : trim s.text ≠ "")
    (hr : (TTSService.convertText net s.text (some s.voice)).1 = .ok result)
    (ha : result.getProp "audio_url" = .ok a) (haf : a.truthy = false)
    (hf : result.getProp "isBase64Encoded" = .ok f) (hff : f.truthy = false) :
    inspectResult createObjectURL result = .error ⟨"Unexpected response format"⟩
    ∧ (handleConvertText net createObjectURL s).1.error
        = "Failed to generate audio: Unexpected response format"
    ∧ (handleConvertText net createObjectURL s).1.audioUrl = .str ""
    ∧ (handleConvertText net createObjectURL s).1.isLoading = false
    ∧ (handleConvertText net createObjectURL s).2
        = .convertTextCall s.text s.voice
            :: (TTSService.convertText net s.text (some s.voice)).2
    ∧ (∀ response, net.post ⟨s.text, s.voice⟩ = .resolved response →
        (handleConvertText net createObjectURL s).2
            = [.convertTextCall s.text s.voice, .post ⟨s.text, s.voice⟩]
        ∧ fallbackCalls (handleConvertText net createObjectURL s).2 = 0) := by
  have hi : inspectResult createObjectURL result = .error ⟨"Unexpected response format"⟩ := by
    simp [inspectResult, ha, haf, hf, hff]
  rw [handleConvertText_inspect_error net createObjectURL s result _ ht hr hi]
  refine ⟨hi, rfl, rfl, rfl, rfl, fun response hp => ?_⟩
  have hc := convertText_resolved net s.text (some s.voice) response hp
  simp only [hc]
  exact ⟨rfl, rfl⟩

theorem unexpected_format_witness :
    (handleConvertText
      ⟨fun _ => .resolved ⟨200, .obj []⟩, fun _ => .rejected ⟨"Failed to fetch"⟩⟩
      (fun _ => "blob:https://tts.example/0001")
      ⟨"Hello world", "Joanna", .str "", false, ""⟩).1.error
      = "Failed to generate audio: Unexpected response format" :=
  (unexpected_format
    ⟨fun _ => .resolved ⟨200, .obj []⟩, fun _ => .rejected ⟨"Failed to fetch"⟩⟩
    (fun _ => "blob:https://tts.example/0001")
    ⟨"Hello world", "Joanna", .str "", false, ""⟩
    (.obj []) .undefined .undefined
    (by decide) rfl rfl rfl rfl rfl).2.1

end TTS
